import Mathlib

/-!
# Verification of the Smspay SMS-payment reconciliation core

Shallow embedding of the server routes (`src/unnamed/part_004`, an Express
`routes.ts`) and the storage layer (`src/unnamed/part_005`, `storage.ts`)
of the Smspay repository, together with proofs about the claims of the
specification.

Conventions of the embedding:
* Text is `List Char`; the JavaScript regexes of the webhook handler are
  embedded as deterministic scanners (each regex here has no essential
  backtracking: every greedy sub-pattern is followed by a sub-pattern that
  can never match a character the greedy part consumed, so maximal munch
  at the leftmost succeeding position is exact).
* Machine numbers: monetary amounts are `Int` (integer minor units as in
  the source).  `parseFloat` on a captured literal with at most two decimal
  digits followed by `* 100` and `Math.round` is exact integer arithmetic,
  embedded as such; a capture whose digits are empty (`parseFloat` = NaN)
  is embedded as `none`, which is observationally equal to the source's
  `NaN`/`null` at every use site (all uses are truthiness tests and `===`
  comparisons against numbers).
* JavaScript truthiness on nullable numbers (`x ? _ : _`, `x || y`,
  `x && _`): `null`, `NaN` and `0` are falsy; embedded by `jsTruthyAmt`.
* Database rows are records in lists; drizzle's `orderBy(desc(col))` and
  JavaScript's (ES2019, stable) `Array.prototype.sort` are both embedded
  by the stable insertion sort `sortBy`.
-/

namespace Smspay

/-! ## Character classes (JS regex classes, ASCII) -/

/-- `\d` of the JavaScript regexes. -/
def isDigitCh (c : Char) : Bool := '0' ≤ c && c ≤ '9'

/-- `[\d,]` — digit or thousands separator. -/
def isDigitOrComma (c : Char) : Bool := isDigitCh c || c = ','

/-- `\s` (common ASCII whitespace). -/
def isSpaceCh (c : Char) : Bool :=
  c = ' ' || c = '\t' || c = '\n' || c = '\r' || c = '\x0b' || c = '\x0c'

/-- `[a-zA-Z]`. -/
def isAlphaCh (c : Char) : Bool :=
  ('a' ≤ c && c ≤ 'z') || ('A' ≤ c && c ≤ 'Z')

/-- `[A-Z0-9]` under the `/i` flag — any letter or digit. -/
def isAlnumCh (c : Char) : Bool := isAlphaCh c || isDigitCh c

/-- `[a-zA-Z0-9._-]` — the VPA local-part class. -/
def isVpaLocalCh (c : Char) : Bool :=
  isAlphaCh c || isDigitCh c || c = '.' || c = '_' || c = '-'

/-! ## Amount extraction: `/Rs\.?\s*([\d,]+(?:\.\d{2})?)/i`
(`amountMatch` in the webhook handler, part_004 line 675). -/

/-- `\.?` right after the `Rs` marker (greedy optional; if the next char is
`'.'` the non-consuming alternative can never succeed, so this is exact). -/
def dropDot : List Char → List Char
  | '.' :: r => r
  | l => l

/-- `(?:\.\d{2})?` — a fractional part is captured only when a dot is
followed by exactly two digits; otherwise the optional group matches empty. -/
def fracPart : List Char → List Char
  | '.' :: d1 :: d2 :: _ => if isDigitCh d1 && isDigitCh d2 then ['.', d1, d2] else []
  | _ => []

/-- `([\d,]+(?:\.\d{2})?)` — the captured numeric literal, or `none` when
no digit/comma is present at this position. -/
def amountNum (l2 : List Char) : Option (List Char) :=
  let ds := l2.takeWhile isDigitOrComma
  if ds = [] then none else some (ds ++ fracPart (l2.drop ds.length))

/-- The part of the amount regex after the case-insensitive `Rs` marker. -/
def amountTail (l : List Char) : Option (List Char) :=
  amountNum ((dropDot l).dropWhile isSpaceCh)

/-- One attempt of the amount regex at the head of `l`:
the marker `Rs` (case-insensitive, per `/i`) then `amountTail`. -/
def amountAt : List Char → Option (List Char)
  | c :: s :: rest =>
    if (c = 'R' || c = 'r') && (s = 's' || s = 'S') then amountTail rest else none
  | _ => none

/-- Leftmost match of the amount regex: the capture group of the first
position where the whole pattern succeeds (JS `String.prototype.match`). -/
def findAmountCapture : List Char → Option (List Char)
  | [] => none
  | c :: rest =>
    match amountAt (c :: rest) with
    | some cap => some cap
    | none => findAmountCapture rest

/-- Numeric value of a digit string (most significant first). -/
def digitsVal (l : List Char) : Nat :=
  l.foldl (fun acc c => acc * 10 + (c.toNat - '0'.toNat)) 0

/-- `Math.round(parseFloat(capture.replace(/,/g, "")) * 100)`.
The capture is digits/commas optionally followed by `'.'` and two digits,
so the arithmetic is exact; `parseFloat("")` (a capture of commas only)
is NaN, embedded as `none`. -/
def captureToCents (cap : List Char) : Option Int :=
  let noComma := cap.filter (fun c => c ≠ ',')
  let intPart := noComma.takeWhile isDigitCh
  match noComma.drop intPart.length with
  | '.' :: d1 :: d2 :: _ => some ((digitsVal intPart) * 100 + digitsVal [d1, d2])
  | _ => if intPart = [] then none else some ((digitsVal intPart) * 100)

/-- `parsedAmount` of the webhook handler (part_004 lines 679-681):
the first `Rs` amount converted to integer minor units, else `null`. -/
def parseAmountCents (text : List Char) : Option Int :=
  match findAmountCapture text with
  | some cap => captureToCents cap
  | none => none

/-! ## UTR extraction: `/(?:UTR|UPI|Ref|TxnId)[:\s]*([A-Z0-9]+)/i` -/

/-- Case-insensitive literal prefix match; returns the remaining text. -/
def stripCI : List Char → List Char → Option (List Char)
  | [], l => some l
  | _ :: _, [] => none
  | p :: ps, c :: cs => if p.toLower = c.toLower then stripCI ps cs else none

/-- `[:\s]*([A-Z0-9]+)` after one of the reference labels. -/
def utrTail (l : List Char) : Option (List Char) :=
  let l2 := l.dropWhile (fun c => c = ':' || isSpaceCh c)
  let code := l2.takeWhile isAlnumCh
  if code = [] then none else some code

/-- Try one label alternative at the head of `l`. -/
def tryLabel (lab : List Char) (l : List Char) : Option (List Char) :=
  match stripCI lab l with
  | some after => utrTail after
  | none => none

/-- One attempt of the UTR regex at the head of `l`.  The four label
alternatives are pairwise incompatible at any one position, so the
first-success combination is the exact alternation semantics. -/
def utrAt (l : List Char) : Option (List Char) :=
  (tryLabel ['U', 'T', 'R'] l).orElse fun _ =>
  (tryLabel ['U', 'P', 'I'] l).orElse fun _ =>
  (tryLabel ['R', 'e', 'f'] l).orElse fun _ =>
  tryLabel ['T', 'x', 'n', 'I', 'd'] l

/-- Leftmost match of the UTR regex (`utrMatch`, part_004 line 676). -/
def findUtrCapture : List Char → Option (List Char)
  | [] => none
  | c :: rest =>
    match utrAt (c :: rest) with
    | some cap => some cap
    | none => findUtrCapture rest

/-! ## VPA extraction: `/([a-zA-Z0-9._-]+@[a-zA-Z]+)/` -/

/-- One attempt of the VPA regex at the head of `l`. -/
def vpaAt (l : List Char) : Option (List Char) :=
  let lp := l.takeWhile isVpaLocalCh
  if lp = [] then none
  else
    match l.drop lp.length with
    | '@' :: r =>
      let dom := r.takeWhile isAlphaCh
      if dom = [] then none else some (lp ++ '@' :: dom)
    | _ => none

/-- Leftmost match of the VPA regex (`vpaMatch`, part_004 line 677). -/
def findVpaCapture : List Char → Option (List Char)
  | [] => none
  | c :: rest =>
    match vpaAt (c :: rest) with
    | some cap => some cap
    | none => findVpaCapture rest

/-! ## The parsed signal and its confidence -/

/-- JS truthiness of the nullable parsed amount: `null`, `NaN` (both
embedded as `none`) and `0` are falsy. -/
def jsTruthyAmt : Option Int → Bool
  | some a => a ≠ 0
  | none => false

/-- The derived fields the webhook handler stores on the inbox row. -/
structure ParsedSignal where
  amount : Option Int
  utr : Option (List Char)
  vpa : Option (List Char)
  confidence : Int
deriving Repr, DecidableEq

/-- The parsing block of the webhook handler (part_004 lines 675-692):
the three regex extractions plus `parseConfidence: parsedAmount ? 80 : 50`. -/
def parseSms (text : List Char) : ParsedSignal :=
  let amt := parseAmountCents text
  { amount := amt
    utr := findUtrCapture text
    vpa := findVpaCapture text
    confidence := if jsTruthyAmt amt then 80 else 50 }

/-! ## Data model (shared/schema.ts, the columns the core touches) -/

/-- `devices` row. -/
structure Device where
  id : Nat
  deviceUuid : String
  webhookTokenHash : List Char
  revokedAt : Option Int
  lastSeenAt : Option Int
deriving Repr, DecidableEq

/-- `payment_requests` row. -/
structure PaymentRequest where
  id : Nat
  shopId : Nat
  branchId : Nat
  invoiceNo : String
  amountCents : Int
  status : String
  createdAt : Int
  shortTokenExpiresAt : Int
  paidAt : Option Int
deriving Repr, DecidableEq

/-- `sms_inbox` row. -/
structure SmsInbox where
  id : Nat
  deviceId : Nat
  rawText : List Char
  sender : List Char
  receivedAt : Int
  parsedAmountCents : Option Int
  parsedVpa : Option (List Char)
  parsedUtr : Option (List Char)
  parseConfidence : Int
  matchedRequestId : Option Nat
  processedAt : Option Int
deriving Repr, DecidableEq

/-- `payments` row. -/
structure Payment where
  paymentRequestId : Nat
  transactionId : List Char
  amountCents : Int
  verifiedBy : Nat
  verifiedAt : Int
  notes : Option (List Char)
deriving Repr, DecidableEq

/-- `match_history` row. -/
structure MatchHistory where
  paymentRequestId : Nat
  smsInboxId : Option Nat
  matchScore : Int
  matchType : String
  matchedBy : Option Nat
  note : Option (List Char)
deriving Repr, DecidableEq

/-- The persistent state behind `DatabaseStorage` (part_005): one list per
table, plus a fresh-id source for created rows. -/
structure Storage where
  devices : List Device
  paymentRequests : List PaymentRequest
  smsInbox : List SmsInbox
  payments : List Payment
  matchHistory : List MatchHistory
  nextId : Nat
deriving Repr, DecidableEq

/-! ## Stable sorting (drizzle `orderBy(desc(col))`, JS stable `sort`) -/

/-- Insert `a` before the first element `b` with `le a b`. -/
def insertBy (le : α → α → Bool) (a : α) : List α → List α
  | [] => [a]
  | b :: l => if le a b then a :: b :: l else b :: insertBy le a l

/-- Stable insertion sort: elements equivalent under `le` keep their
original relative order. -/
def sortBy (le : α → α → Bool) : List α → List α
  | [] => []
  | a :: l => insertBy le a (sortBy le l)

/-! ## Storage operations (part_005) -/

/-- `getDeviceByUuid`. -/
def getDeviceByUuid (st : Storage) (uuid : String) : Option Device :=
  st.devices.find? (fun d => d.deviceUuid = uuid)

/-- `updateDevice(id, { lastSeenAt })`. -/
def updateDeviceLastSeen (st : Storage) (id : Nat) (now : Int) : Storage :=
  { st with devices := st.devices.map (fun d =>
      if d.id = id then { d with lastSeenAt := some now } else d) }

/-- `getSmsInbox`. -/
def getSmsInbox (st : Storage) (id : Nat) : Option SmsInbox :=
  st.smsInbox.find? (fun s => s.id = id)

/-- `getPaymentRequest`. -/
def getPaymentRequest (st : Storage) (id : Nat) : Option PaymentRequest :=
  st.paymentRequests.find? (fun r => r.id = id)

/-- `getPaymentByTransactionId`. -/
def getPaymentByTransactionId (st : Storage) (tx : List Char) : Option Payment :=
  st.payments.find? (fun p => p.transactionId = tx)

/-- The `where` conditions built by `getPaymentRequests` (part_005 lines
268-281).  A filter is applied only when the option is present, and the
status filter additionally skips the sentinel `"all"` (and the empty
string, which is falsy in JS). -/
def requestWhere (shopId branchId : Option Nat) (status : Option String)
    (r : PaymentRequest) : Bool :=
  (match shopId with
   | some s => r.shopId = s
   | none => true) &&
  (match branchId with
   | some b => r.branchId = b
   | none => true) &&
  (match status with
   | some s => if s ≠ "" && s ≠ "all" then r.status = s else true
   | none => true)

/-- `getPaymentRequests` (part_005 lines 260-290): filter, then
`orderBy(desc(createdAt))`, then `limit` when truthy (0 is falsy). -/
def getPaymentRequests (st : Storage) (shopId branchId : Option Nat)
    (status : Option String) (limit : Option Nat) : List PaymentRequest :=
  let sorted := sortBy (fun a b => decide (b.createdAt ≤ a.createdAt))
    (st.paymentRequests.filter (requestWhere shopId branchId status))
  match limit with
  | some n => if n ≠ 0 then sorted.take n else sorted
  | none => sorted

/-- `getUnidentifiedSms` (part_005 lines 314-320): all inbox rows with a
null `matchedRequestId`, newest `receivedAt` first.  The `shopId` argument
is accepted but never used by the source. -/
def getUnidentifiedSms (st : Storage) (_shopId : Option Nat) : List SmsInbox :=
  sortBy (fun a b => decide (b.receivedAt ≤ a.receivedAt))
    (st.smsInbox.filter (fun s => s.matchedRequestId = none))

/-! ## Webhook route `POST /api/sms/webhook` (part_004 lines 651-707) -/

/-- Validated body of the webhook request (`smsWebhookSchema`). -/
structure SmsWebhookBody where
  deviceId : String
  fromAddr : List Char
  text : List Char
  receivedAt : Int
deriving Repr, DecidableEq

/-- Route outcome, by HTTP status of the source handler. -/
inductive WebhookResult
  /-- 200 `{ id, status: "received" }`. -/
  | ok (smsId : Nat)
  /-- 401 `Webhook token required`. -/
  | unauthorized
  /-- 403 `Invalid or revoked device`. -/
  | forbidden
deriving Repr, DecidableEq

/-- `req.headers["x-webhook-token"] || req.headers["authorization"]`
followed by the `!authHeader` guard: the first truthy (present, non-empty)
header, if any. -/
def effectiveHeader (xwt auth : Option (List Char)) : Option (List Char) :=
  match xwt with
  | some s =>
    if s ≠ [] then some s
    else match auth with
      | some t => if t ≠ [] then some t else none
      | none => none
  | none =>
    match auth with
    | some t => if t ≠ [] then some t else none
    | none => none

/-- Bool prefix test on character lists. -/
def leadsWith : List Char → List Char → Bool
  | [], _ => true
  | _ :: _, [] => false
  | p :: ps, c :: cs => p = c && leadsWith ps cs

/-- `String.prototype.replace(pat, "")` with a string pattern: remove the
first occurrence of `pat`, if any. -/
def removeFirstOcc (pat : List Char) : List Char → List Char
  | [] => []
  | c :: rest =>
    if leadsWith pat (c :: rest) then (c :: rest).drop pat.length
    else c :: removeFirstOcc pat rest

/-- The `"Bearer "` marker stripped from the authorization header. -/
def bearerTag : List Char := ['B', 'e', 'a', 'r', 'e', 'r', ' ']

/-- The inbox row the webhook handler stores (`createSmsInbox` call,
part_004 lines 683-695). -/
def webhookSmsRow (st : Storage) (device : Device) (body : SmsWebhookBody) : SmsInbox :=
  let sig := parseSms body.text
  { id := st.nextId
    deviceId := device.id
    rawText := body.text
    sender := body.fromAddr
    receivedAt := body.receivedAt
    parsedAmountCents := sig.amount
    parsedVpa := sig.vpa
    parsedUtr := sig.utr
    parseConfidence := sig.confidence
    matchedRequestId := none
    processedAt := none }

/-- `POST /api/sms/webhook`: token-hash device authentication, last-seen
update, SMS parsing, inbox insertion.  `hash` abstracts the SHA-256
`hashToken`; the source's auto-matching step is absent (its line 697 is
`// TODO: Auto-matching logic would go here`). -/
def smsWebhook (hash : List Char → List Char) (st : Storage)
    (xwt auth : Option (List Char)) (body : SmsWebhookBody) (now : Int) :
    WebhookResult × Storage :=
  match effectiveHeader xwt auth with
  | none => (.unauthorized, st)
  | some header =>
    let tokenHash := hash (removeFirstOcc bearerTag header)
    match getDeviceByUuid st body.deviceId with
    | none => (.forbidden, st)
    | some device =>
      if device.webhookTokenHash ≠ tokenHash then (.forbidden, st)
      else if device.revokedAt.isSome then (.forbidden, st)
      else
        let st1 := updateDeviceLastSeen st device.id now
        (.ok st1.nextId,
          { st1 with
              smsInbox := st1.smsInbox ++ [webhookSmsRow st1 device body]
              nextId := st1.nextId + 1 })

/-! ## Candidate route `GET /api/sms/:id/candidates` (part_004 lines 721-758) -/

/-- A scored payment request as returned by the candidates route. -/
structure Candidate where
  req : PaymentRequest
  matchScore : Int
deriving Repr, DecidableEq

/-- The per-request score (part_004 lines 738-748): 100 on exact amount
equality, 80 when `Math.abs(r.amountCents - sms.parsedAmountCents) < 100`,
0 otherwise; a falsy parsed amount (`null`/`NaN`/`0`) short-circuits both
guards to score 0. -/
def scoreFor (amt : Option Int) (r : PaymentRequest) : Int :=
  match amt with
  | some a =>
    if a ≠ 0 && r.amountCents = a then 100
    else if a ≠ 0 && (r.amountCents - a).natAbs < 100 then 80
    else 0
  | none => 0

/-- The candidates route body: pending requests of the caller's shop,
scored, restricted to positive score, stably sorted by descending score. -/
def smsCandidates (st : Storage) (shopId : Option Nat) (sms : SmsInbox) :
    List Candidate :=
  let requests := getPaymentRequests st shopId none (some "pending") none
  sortBy (fun a b => decide (b.matchScore ≤ a.matchScore))
    ((requests.map (fun r => ⟨r, scoreFor sms.parsedAmountCents r⟩)).filter
      (fun c => 0 < c.matchScore))

/-! ## Manual match `POST /api/sms/:id/manual-match` (part_004 lines 760-818) -/

/-- Route outcome of the resolution endpoints. -/
inductive MatchResult
  /-- 200 success. -/
  | ok
  /-- 404 `SMS not found`. -/
  | smsNotFound
  /-- 404 `Payment request not found`. -/
  | requestNotFound
  /-- 400 `Transaction ID already used` (verify route only). -/
  | duplicateTransaction
  /-- 500 `Failed to match SMS`: a storage statement threw inside the
  route's try block (in this core, the settlement insert violating the
  UNIQUE `payments.transactionId` constraint) and the catch answered with
  a server error. -/
  | serverError
deriving Repr, DecidableEq

/-- The `createPayment` storage statement (part_005 line 354): a plain
insert into `payments`.  The `transactionId` column is declared UNIQUE
(schema.ts line 173), so the insert throws — embedded as `none` — when a
payment with the same transaction id already exists; otherwise the row is
appended. -/
def createPayment (st : Storage) (p : Payment) : Option Storage :=
  if (getPaymentByTransactionId st p.transactionId).isSome then none
  else some { st with payments := st.payments ++ [p] }

/-- `"MANUAL-"`, the prefix of a generated transaction id. -/
def manualTag : List Char := ['M', 'A', 'N', 'U', 'A', 'L', '-']

/-- The settlement payment the manual-match route records:
`transactionId = sms.parsedUtr || "MANUAL-" + nanoid(8)` and
`amountCents = sms.parsedAmountCents || request.amountCents` (JS `||`,
so an empty/zero/null left side falls through).  `freshTx` abstracts the
`nanoid(8)` draw. -/
def manualPayment (sms : SmsInbox) (request : PaymentRequest) (reqId : Nat)
    (note : Option (List Char)) (userId : Nat) (now : Int)
    (freshTx : List Char) : Payment :=
  { paymentRequestId := reqId
    transactionId :=
      match sms.parsedUtr with
      | some u => if u ≠ [] then u else manualTag ++ freshTx
      | none => manualTag ++ freshTx
    amountCents :=
      match sms.parsedAmountCents with
      | some a => if a ≠ 0 then a else request.amountCents
      | none => request.amountCents
    verifiedBy := userId
    verifiedAt := now
    notes := note }

/-- The `updateSmsInbox` statement of the manual-match route (part_004
lines 776-779): mark the SMS matched and processed. -/
def smsMatchedWrite (smsId reqId : Nat) (now : Int) (st : Storage) : Storage :=
  { st with smsInbox := st.smsInbox.map (fun s =>
      if s.id = smsId then { s with matchedRequestId := some reqId, processedAt := some now }
      else s) }

/-- The `updatePaymentRequest` statement of the resolution routes: flip the
request to paid. -/
def requestPaidWrite (reqId : Nat) (now : Int) (st : Storage) : Storage :=
  { st with paymentRequests := st.paymentRequests.map (fun r =>
      if r.id = reqId then { r with status := "paid", paidAt := some now } else r) }

/-- The `createMatchHistory` statement of the manual-match route: append
the match record. -/
def matchRecordWrite (smsId reqId userId : Nat) (note : Option (List Char))
    (st : Storage) : Storage :=
  { st with matchHistory := st.matchHistory ++
      [{ paymentRequestId := reqId
         smsInboxId := some smsId
         matchScore := 100
         matchType := "manual"
         matchedBy := some userId
         note := note }] }

/-- The four sequential storage statements of the manual-match route, in
source order (part_004 lines 776-807), as the state transformers of their
success effects: mark the SMS matched, insert the payment, flip the
request to paid, append the match record.  Each is a separate
`await storage.*` call with no enclosing transaction.  The settlement
insert can also throw on the UNIQUE `payments.transactionId` constraint —
`manualMatch` below models that outcome; this list records what each
statement writes when it succeeds and is used to observe the intermediate
states of the untransacted sequence. -/
def manualMatchSteps (sms : SmsInbox) (request : PaymentRequest)
    (smsId reqId : Nat) (note : Option (List Char)) (userId : Nat) (now : Int)
    (freshTx : List Char) : List (Storage → Storage) :=
  [ smsMatchedWrite smsId reqId now,
    fun st => { st with payments :=
      st.payments ++ [manualPayment sms request reqId note userId now freshTx] },
    requestPaidWrite reqId now,
    matchRecordWrite smsId reqId userId note ]

/-- Apply a list of writes in order. -/
def applyWrites : List (Storage → Storage) → Storage → Storage
  | [], st => st
  | f :: fs, st => applyWrites fs (f st)

/-- `POST /api/sms/:id/manual-match`: look up the SMS and the chosen
request (404 when absent), then run the four writes in sequence.  The
source checks nothing else — neither the request's status nor whether the
SMS already has a `matchedRequestId`.  The only post-lookup failure is the
settlement insert throwing on a duplicate transaction id: the route's
catch then answers 500, with the SMS update (already awaited) persisted
and the later statements never reached. -/
def manualMatch (st : Storage) (smsId reqId : Nat) (note : Option (List Char))
    (userId : Nat) (now : Int) (freshTx : List Char) : MatchResult × Storage :=
  match getSmsInbox st smsId with
  | none => (.smsNotFound, st)
  | some sms =>
    match getPaymentRequest st reqId with
    | none => (.requestNotFound, st)
    | some request =>
      let st1 := smsMatchedWrite smsId reqId now st
      match createPayment st1 (manualPayment sms request reqId note userId now freshTx) with
      | none => (.serverError, st1)
      | some st2 => (.ok, matchRecordWrite smsId reqId userId note (requestPaidWrite reqId now st2))

/-- The state after only the first `k` of the manual-match writes have
been applied (the lookups having succeeded and each applied statement
having succeeded): the observable state when the sequential, untransacted
execution halts part-way. -/
def manualMatchPartial (st : Storage) (smsId reqId : Nat)
    (note : Option (List Char)) (userId : Nat) (now : Int)
    (freshTx : List Char) (k : Nat) : Storage :=
  match getSmsInbox st smsId with
  | none => st
  | some sms =>
    match getPaymentRequest st reqId with
    | none => st
    | some request =>
      applyWrites ((manualMatchSteps sms request smsId reqId note userId now freshTx).take k) st

/-! ## Verify route `POST /api/payments/verify` (part_004 lines 512-566) -/

/-- The three sequential storage writes of the verify route, in source
order (lines 527-551): create the payment, flip the request to paid,
append the match record (`smsInboxId: null`). -/
def verifyWrites (reqId : Nat) (txId : List Char) (amountCents : Int)
    (notes : Option (List Char)) (userId : Nat) (now : Int) :
    List (Storage → Storage) :=
  [ fun st => { st with payments := st.payments ++
      [{ paymentRequestId := reqId
         transactionId := txId
         amountCents := amountCents
         verifiedBy := userId
         verifiedAt := now
         notes := notes }] },
    fun st => { st with paymentRequests := st.paymentRequests.map (fun r =>
      if r.id = reqId then { r with status := "paid", paidAt := some now } else r) },
    fun st => { st with matchHistory := st.matchHistory ++
      [{ paymentRequestId := reqId
         smsInboxId := none
         matchScore := 100
         matchType := "manual"
         matchedBy := some userId
         note := notes }] } ]

/-- `POST /api/payments/verify`: request lookup (404), duplicate
transaction-id check (400), then the three writes. -/
def verifyPayment (st : Storage) (reqId : Nat) (txId : List Char)
    (amountCents : Int) (notes : Option (List Char)) (userId : Nat)
    (now : Int) : MatchResult × Storage :=
  match getPaymentRequest st reqId with
  | none => (.requestNotFound, st)
  | some _ =>
    match getPaymentByTransactionId st txId with
    | some _ => (.duplicateTransaction, st)
    | none => (.ok, applyWrites (verifyWrites reqId txId amountCents notes userId now) st)

/-- The state after only the first `k` of the verify writes (the
validations having passed). -/
def verifyPartial (st : Storage) (reqId : Nat) (txId : List Char)
    (amountCents : Int) (notes : Option (List Char)) (userId : Nat)
    (now : Int) (k : Nat) : Storage :=
  match getPaymentRequest st reqId with
  | none => st
  | some _ =>
    match getPaymentByTransactionId st txId with
    | some _ => st
    | none => applyWrites ((verifyWrites reqId txId amountCents notes userId now).take k) st

/-! ## Dismiss route `POST /api/sms/:id/dismiss` (part_004 lines 820-830) -/

/-- `updateSmsInbox(id, { processedAt })` only: the matched-request field
is left untouched. -/
def dismissSms (st : Storage) (smsId : Nat) (now : Int) : Storage :=
  { st with smsInbox := st.smsInbox.map (fun s =>
      if s.id = smsId then { s with processedAt := some now } else s) }

/-! ## Concrete states used to evaluate the routes on explicit inputs -/

/-- A registered, unrevoked device. -/
def devA : Device :=
  { id := 1, deviceUuid := "dev-1", webhookTokenHash := ['t', 'o', 'k'],
    revokedAt := none, lastSeenAt := none }

/-- A pending request for 500.00 (50000 minor units). -/
def reqA : PaymentRequest :=
  { id := 1, shopId := 1, branchId := 1, invoiceNo := "INV-1",
    amountCents := 50000, status := "pending", createdAt := 10,
    shortTokenExpiresAt := 1000, paidAt := none }

/-- State at webhook time: one device, one pending request, empty inbox. -/
def stC1 : Storage :=
  { devices := [devA], paymentRequests := [reqA], smsInbox := [],
    payments := [], matchHistory := [], nextId := 7 }

/-- A webhook body whose text parses to exactly `reqA`'s amount. -/
def bodyC1 : SmsWebhookBody :=
  { deviceId := "dev-1", fromAddr := ['B', 'K'],
    text := "Rs. 500.00 credited. UTR: AB12XY".toList, receivedAt := 100 }

/-- An unmatched inbox row whose parsed amount equals `reqA`'s amount. -/
def smsB : SmsInbox :=
  { id := 1, deviceId := 1, rawText := [], sender := [], receivedAt := 50,
    parsedAmountCents := some 50000, parsedVpa := none,
    parsedUtr := some ['U', '1'], parseConfidence := 80,
    matchedRequestId := none, processedAt := none }

/-- State before a manual match: `smsB` unmatched, `reqA` pending. -/
def stC2 : Storage :=
  { devices := [], paymentRequests := [reqA], smsInbox := [smsB],
    payments := [], matchHistory := [], nextId := 3 }

/-- An unmatched inbox row with no parsed UTR, so the settlement insert
gets a freshly generated `MANUAL-` transaction id on every attempt. -/
def smsN : SmsInbox :=
  { id := 1, deviceId := 1, rawText := [], sender := [], receivedAt := 55,
    parsedAmountCents := some 50000, parsedVpa := none, parsedUtr := none,
    parseConfidence := 80, matchedRequestId := none, processedAt := none }

/-- State before a manual match of the UTR-less message: `smsN` unmatched,
`reqA` pending, no payments. -/
def stC2N : Storage :=
  { devices := [], paymentRequests := [reqA], smsInbox := [smsN],
    payments := [], matchHistory := [], nextId := 3 }

/-- A pending request 100 minor units away from a parsed amount of 1000. -/
def reqT : PaymentRequest :=
  { id := 2, shopId := 1, branchId := 1, invoiceNo := "INV-2",
    amountCents := 1100, status := "pending", createdAt := 20,
    shortTokenExpiresAt := 5000, paidAt := none }

/-- An inbox row with parsed amount 1000. -/
def smsT : SmsInbox :=
  { id := 2, deviceId := 1, rawText := [], sender := [], receivedAt := 60,
    parsedAmountCents := some 1000, parsedVpa := none, parsedUtr := none,
    parseConfidence := 80, matchedRequestId := none, processedAt := none }

/-- State for the tolerance-boundary query. -/
def stC4 : Storage :=
  { devices := [], paymentRequests := [reqT], smsInbox := [smsT],
    payments := [], matchHistory := [], nextId := 4 }

/-- The older of two equal-amount pending requests. -/
def reqOld : PaymentRequest :=
  { id := 1, shopId := 1, branchId := 1, invoiceNo := "A",
    amountCents := 500, status := "pending", createdAt := 10,
    shortTokenExpiresAt := 900, paidAt := none }

/-- The newer of two equal-amount pending requests. -/
def reqNew : PaymentRequest :=
  { id := 2, shopId := 1, branchId := 1, invoiceNo := "B",
    amountCents := 500, status := "pending", createdAt := 20,
    shortTokenExpiresAt := 900, paidAt := none }

/-- An inbox row matching both requests exactly. -/
def smsC5x : SmsInbox :=
  { id := 3, deviceId := 1, rawText := [], sender := [], receivedAt := 70,
    parsedAmountCents := some 500, parsedVpa := none, parsedUtr := none,
    parseConfidence := 80, matchedRequestId := none, processedAt := none }

/-- State with two exact-scoring requests created at distinct times. -/
def stC5 : Storage :=
  { devices := [], paymentRequests := [reqOld, reqNew], smsInbox := [smsC5x],
    payments := [], matchHistory := [], nextId := 4 }

/-- A pending request whose expiry (50) has passed at query time (1000). -/
def reqExp : PaymentRequest :=
  { id := 3, shopId := 1, branchId := 1, invoiceNo := "I3",
    amountCents := 700, status := "pending", createdAt := 5,
    shortTokenExpiresAt := 50, paidAt := none }

/-- An inbox row received long after `reqExp` expired, amount equal. -/
def smsE : SmsInbox :=
  { id := 4, deviceId := 1, rawText := [], sender := [], receivedAt := 1000,
    parsedAmountCents := some 700, parsedVpa := none, parsedUtr := none,
    parseConfidence := 80, matchedRequestId := none, processedAt := none }

/-- State for the expired-candidate query. -/
def stC8 : Storage :=
  { devices := [], paymentRequests := [reqExp], smsInbox := [smsE],
    payments := [], matchHistory := [], nextId := 5 }

/-- State with one unmatched, one matched, and one dismissed inbox row. -/
def stC10 : Storage :=
  { devices := [], paymentRequests := [reqA],
    smsInbox :=
      [ smsB,
        { smsB with id := 11, matchedRequestId := some 1 },
        { smsB with id := 12, processedAt := some 99 } ],
    payments := [], matchHistory := [], nextId := 20 }

/-! ## Properties of the stable sort -/

theorem mem_insertBy (le : α → α → Bool) (a x : α) (l : List α) :
    x ∈ insertBy le a l ↔ x = a ∨ x ∈ l := by
  induction l with
  | nil => simp [insertBy]
  | cons b l ih =>
    by_cases h : le a b = true
    · simp [insertBy, h, List.mem_cons]
    · simp only [insertBy, h]
      simp [List.mem_cons, ih]
      tauto

theorem mem_sortBy (le : α → α → Bool) (x : α) (l : List α) :
    x ∈ sortBy le l ↔ x ∈ l := by
  induction l with
  | nil => simp [sortBy]
  | cons a l ih => simp [sortBy, mem_insertBy, ih, List.mem_cons]

theorem pairwise_insertBy {P : α → α → Prop} (le : α → α → Bool)
    (hP : ∀ x y, le x y = false → P y x) (a : α) (l : List α)
    (ha : ∀ x ∈ l, P a x) (hl : l.Pairwise P) :
    (insertBy le a l).Pairwise P := by
  induction l with
  | nil => simp [insertBy]
  | cons b l ih =>
    rcases List.pairwise_cons.mp hl with ⟨hb, hl'⟩
    by_cases h : le a b = true
    · simp only [insertBy, h, if_true]
      exact List.pairwise_cons.mpr ⟨ha, hl⟩
    · simp only [insertBy, h, if_false, Bool.false_eq_true]
      refine List.pairwise_cons.mpr
        ⟨?_, ih (fun x hx => ha x (List.mem_cons_of_mem b hx)) hl'⟩
      intro x hx
      rcases (mem_insertBy le a x l).mp hx with rfl | hx'
      · exact hP x b (Bool.not_eq_true _ ▸ h)
      · exact hb x hx'

theorem pairwise_sortBy_of_pairwise {P : α → α → Prop} (le : α → α → Bool)
    (hP : ∀ x y, le x y = false → P y x) (l : List α)
    (hl : l.Pairwise P) : (sortBy le l).Pairwise P := by
  induction l with
  | nil => simp [sortBy]
  | cons a l ih =>
    rcases List.pairwise_cons.mp hl with ⟨ha, hl'⟩
    simp only [sortBy]
    exact pairwise_insertBy le hP a _
      (fun x hx => ha x ((mem_sortBy le x l).mp hx)) (ih hl')

theorem pairwise_le_insertBy (le : α → α → Bool)
    (htot : ∀ x y, le x y = false → le y x = true)
    (htrans : ∀ x y z, le x y = true → le y z = true → le x z = true)
    (a : α) (l : List α) (hl : l.Pairwise (fun x y => le x y = true)) :
    (insertBy le a l).Pairwise (fun x y => le x y = true) := by
  induction l with
  | nil => simp [insertBy]
  | cons b l ih =>
    rcases List.pairwise_cons.mp hl with ⟨hb, hl'⟩
    by_cases h : le a b = true
    · simp only [insertBy, h, if_true]
      refine List.pairwise_cons.mpr ⟨?_, hl⟩
      intro x hx
      rcases List.mem_cons.mp hx with rfl | hx'
      · exact h
      · exact htrans a b x h (hb x hx')
    · simp only [insertBy, h, if_false, Bool.false_eq_true]
      refine List.pairwise_cons.mpr ⟨?_, ih hl'⟩
      intro x hx
      rcases (mem_insertBy le a x l).mp hx with rfl | hx'
      · exact htot x b (Bool.not_eq_true _ ▸ h)
      · exact hb x hx'

theorem sortBy_sorted (le : α → α → Bool)
    (htot : ∀ x y, le x y = false → le y x = true)
    (htrans : ∀ x y z, le x y = true → le y z = true → le x z = true)
    (l : List α) : (sortBy le l).Pairwise (fun x y => le x y = true) := by
  induction l with
  | nil => simp [sortBy]
  | cons a l ih =>
    simp only [sortBy]
    exact pairwise_le_insertBy le htot htrans a _ ih

/-! ## Claim C1 -/

/-- C1: the claim says an admitted SMS whose ranked candidate list has a
unique top candidate at score 100 transitions directly to AutoMatched
(settlement recorded, request flipped to paid, auto match record).  The
code never does this — its auto-matching step is an unimplemented TODO:
here a message is admitted, its candidate list is exactly one candidate at
score 100, yet the stored message has no `matchedRequestId`, no payment
and no match record are created, and the winning request stays pending. -/
theorem c1_webhook_never_auto_matches :
    (smsWebhook id stC1 (some ['t', 'o', 'k']) none bodyC1 100).1 = WebhookResult.ok 7 ∧
    smsCandidates stC1 (some 1) (webhookSmsRow stC1 devA bodyC1) =
      [{ req := reqA, matchScore := 100 }] ∧
    (smsWebhook id stC1 (some ['t', 'o', 'k']) none bodyC1 100).2.payments = [] ∧
    (smsWebhook id stC1 (some ['t', 'o', 'k']) none bodyC1 100).2.matchHistory = [] ∧
    (∀ s ∈ (smsWebhook id stC1 (some ['t', 'o', 'k']) none bodyC1 100).2.smsInbox,
      s.matchedRequestId = none) ∧
    getPaymentRequest (smsWebhook id stC1 (some ['t', 'o', 'k']) none bodyC1 100).2 1 =
      some reqA := by decide

/-! ## Claim C2 -/

theorem smsMatchedWrite_payments (smsId reqId : Nat) (now : Int) (st : Storage) :
    (smsMatchedWrite smsId reqId now st).payments = st.payments := rfl

theorem smsMatchedWrite_matchHistory (smsId reqId : Nat) (now : Int) (st : Storage) :
    (smsMatchedWrite smsId reqId now st).matchHistory = st.matchHistory := rfl

theorem getPaymentByTransactionId_smsMatchedWrite (smsId reqId : Nat) (now : Int)
    (st : Storage) (tx : List Char) :
    getPaymentByTransactionId (smsMatchedWrite smsId reqId now st) tx =
      getPaymentByTransactionId st tx := rfl

/-- C2 counterexample: the claim says the manual match validates that the
request is still pending and that the message is unmatched, and that a
second manual-match attempt on an already-matched message id always fails
with a conflict and creates no additional settlement or match record.
For a message with no parsed UTR the settlement insert gets a fresh
generated transaction id on every attempt, so no constraint interferes:
the first manual match succeeds and marks the message matched and the
request paid — and the second manual match on the same (now matched)
message id against the same (now paid) request succeeds again, growing
the payments and match-history tables to two rows each. -/
theorem c2_counterexample_double_match :
    (manualMatch stC2N 1 1 none 9 200 ['X']).1 = MatchResult.ok ∧
    (getSmsInbox (manualMatch stC2N 1 1 none 9 200 ['X']).2 1).map
      SmsInbox.matchedRequestId = some (some 1) ∧
    (getPaymentRequest (manualMatch stC2N 1 1 none 9 200 ['X']).2 1).map
      PaymentRequest.status = some "paid" ∧
    (manualMatch (manualMatch stC2N 1 1 none 9 200 ['X']).2 1 1 none 9 201 ['Y']).1 =
      MatchResult.ok ∧
    (manualMatch (manualMatch stC2N 1 1 none 9 200 ['X']).2 1 1 none 9 201 ['Y']).2.payments.length = 2 ∧
    (manualMatch (manualMatch stC2N 1 1 none 9 200 ['X']).2 1 1 none 9 201 ['Y']).2.matchHistory.length = 2 := by
  decide

/-- C2 amended: the manual-match route validates only that the SMS message
and the chosen payment request exist (404 otherwise); it checks neither
that the request is still pending nor that the message is unmatched.
When both rows exist, the outcome is decided solely by the UNIQUE
constraint on the settlement's transaction id (the message's parsed UTR,
or a generated id): if that id is fresh the operation succeeds and appends
a settlement payment and a match record — regardless of the request's
status or of a prior match on the same message id — and if the id
collides with an existing payment the insert throws and the route answers
a 500 server error (not a structured conflict), with the message row
already re-marked but no additional payment or match record. -/
theorem c2_manual_match_lacks_guards (st : Storage) (smsId reqId : Nat)
    (note : Option (List Char)) (userId : Nat) (now : Int) (freshTx : List Char)
    (sms : SmsInbox) (request : PaymentRequest)
    (hs : getSmsInbox st smsId = some sms)
    (hr : getPaymentRequest st reqId = some request) :
    (getPaymentByTransactionId st
        (manualPayment sms request reqId note userId now freshTx).transactionId = none →
      (manualMatch st smsId reqId note userId now freshTx).1 = MatchResult.ok ∧
      (manualMatch st smsId reqId note userId now freshTx).2.payments =
        st.payments ++ [manualPayment sms request reqId note userId now freshTx] ∧
      (manualMatch st smsId reqId note userId now freshTx).2.matchHistory =
        st.matchHistory ++
          [{ paymentRequestId := reqId, smsInboxId := some smsId, matchScore := 100,
             matchType := "manual", matchedBy := some userId, note := note }]) ∧
    ((getPaymentByTransactionId st
        (manualPayment sms request reqId note userId now freshTx).transactionId).isSome = true →
      (manualMatch st smsId reqId note userId now freshTx).1 = MatchResult.serverError ∧
      (manualMatch st smsId reqId note userId now freshTx).2 =
        smsMatchedWrite smsId reqId now st ∧
      (manualMatch st smsId reqId note userId now freshTx).2.payments = st.payments ∧
      (manualMatch st smsId reqId note userId now freshTx).2.matchHistory =
        st.matchHistory) := by
  constructor
  · intro hfresh
    simp [manualMatch, hs, hr, createPayment,
      getPaymentByTransactionId_smsMatchedWrite, hfresh, requestPaidWrite,
      matchRecordWrite, smsMatchedWrite_payments, smsMatchedWrite_matchHistory]
  · intro hdup
    simp [manualMatch, hs, hr, createPayment,
      getPaymentByTransactionId_smsMatchedWrite, hdup,
      smsMatchedWrite_payments, smsMatchedWrite_matchHistory]

/-- C2 witness: the amended theorem's fresh-id branch applied at the
concrete pre-state of the UTR-less message. -/
theorem c2_manual_match_lacks_guards_witness :
    (manualMatch stC2N 1 1 none 9 200 ['X']).1 = MatchResult.ok ∧
    (manualMatch stC2N 1 1 none 9 200 ['X']).2.payments =
      stC2N.payments ++ [manualPayment smsN reqA 1 none 9 200 ['X']] ∧
    (manualMatch stC2N 1 1 none 9 200 ['X']).2.matchHistory =
      stC2N.matchHistory ++
        [{ paymentRequestId := 1, smsInboxId := some 1, matchScore := 100,
           matchType := "manual", matchedBy := some 9, note := none }] :=
  (c2_manual_match_lacks_guards stC2N 1 1 none 9 200 ['X'] smsN reqA
    (by decide) (by decide)).1 (by decide)

/-! ## Claim C3 -/

/-- C3 counterexample: the claim says a match application that fails
part-way leaves either none or all of its three writes observable, never a
strict subset.  The manual-match route issues its writes as separate
sequential statements with no transaction: the state after the first two
writes (SMS marked, settlement payment created) and before the status
update is observable, and in it the payment against request 1 exists while
request 1 is still `pending` and no match record has been written —
exactly a strict subset. -/
theorem c3_counterexample_partial_write :
    (manualMatchPartial stC2 1 1 none 9 300 ['T'] 2).payments =
      [manualPayment smsB reqA 1 none 9 300 ['T']] ∧
    (getPaymentRequest (manualMatchPartial stC2 1 1 none 9 300 ['T'] 2) 1).map
      PaymentRequest.status = some "pending" ∧
    (manualMatchPartial stC2 1 1 none 9 300 ['T'] 2).matchHistory = [] := by decide

/-- C3 amended: in both resolution routes the writes are separate
sequential storage statements with no enclosing transaction, so an
execution that halts right after the settlement-payment write leaves the
payment recorded while the request keeps its prior status and no match
record exists — a strict subset of the writes is observable. -/
theorem c3_writes_not_atomic (st : Storage) (smsId reqId : Nat)
    (note : Option (List Char)) (userId : Nat) (now : Int) (freshTx : List Char)
    (sms : SmsInbox) (request : PaymentRequest)
    (hs : getSmsInbox st smsId = some sms)
    (hr : getPaymentRequest st reqId = some request)
    (txId : List Char) (amountCents : Int)
    (hdup : getPaymentByTransactionId st txId = none) :
    ((manualMatchPartial st smsId reqId note userId now freshTx 2).payments =
        st.payments ++ [manualPayment sms request reqId note userId now freshTx] ∧
      (manualMatchPartial st smsId reqId note userId now freshTx 2).paymentRequests =
        st.paymentRequests ∧
      (manualMatchPartial st smsId reqId note userId now freshTx 2).matchHistory =
        st.matchHistory) ∧
    ((verifyPartial st reqId txId amountCents note userId now 1).payments =
        st.payments ++
          [{ paymentRequestId := reqId, transactionId := txId,
             amountCents := amountCents, verifiedBy := userId,
             verifiedAt := now, notes := note }] ∧
      (verifyPartial st reqId txId amountCents note userId now 1).paymentRequests =
        st.paymentRequests ∧
      (verifyPartial st reqId txId amountCents note userId now 1).matchHistory =
        st.matchHistory) := by
  simp [manualMatchPartial, verifyPartial, hs, hr, hdup, manualMatchSteps,
    smsMatchedWrite, verifyWrites, applyWrites, List.take]

/-- C3 witness: the amended theorem applied at the concrete pre-state. -/
theorem c3_writes_not_atomic_witness :
    ((manualMatchPartial stC2 1 1 none 9 300 ['T'] 2).payments =
        stC2.payments ++ [manualPayment smsB reqA 1 none 9 300 ['T']] ∧
      (manualMatchPartial stC2 1 1 none 9 300 ['T'] 2).paymentRequests =
        stC2.paymentRequests ∧
      (manualMatchPartial stC2 1 1 none 9 300 ['T'] 2).matchHistory =
        stC2.matchHistory) ∧
    ((verifyPartial stC2 1 ['T', 'X'] 50000 none 9 300 1).payments =
        stC2.payments ++
          [{ paymentRequestId := 1, transactionId := ['T', 'X'],
             amountCents := 50000, verifiedBy := 9,
             verifiedAt := 300, notes := none }] ∧
      (verifyPartial stC2 1 ['T', 'X'] 50000 none 9 300 1).paymentRequests =
        stC2.paymentRequests ∧
      (verifyPartial stC2 1 ['T', 'X'] 50000 none 9 300 1).matchHistory =
        stC2.matchHistory) :=
  c3_writes_not_atomic stC2 1 1 none 9 300 ['T'] smsB reqA
    (by decide) (by decide) ['T', 'X'] 50000 (by decide)

/-! ## Claim C4 -/

/-- C4 counterexample: the claim says a request whose amount differs from
the signal amount by at most the tolerance of 100 minor units scores 80
and is returned.  The code uses a strict comparison
(`Math.abs(diff) < 100`): at difference exactly 100 (signal 1000, request
1100) the score is 0 and the request is excluded from the candidate
list. -/
theorem c4_counterexample_tolerance_boundary :
    (reqT.amountCents - 1000).natAbs = 100 ∧
    scoreFor (some 1000) reqT = 0 ∧
    smsCandidates stC4 (some 1) smsT = [] := by decide

/-- C4 amended: with a truthy (non-null, non-zero) signal amount, a request
scores 100 on exact equality, 80 when the absolute difference is strictly
below 100 minor units, and 0 (excluded) when the difference is 100 or
more; with a null signal amount every request scores 0; and every returned
candidate carries its computed score, which is positive. -/
theorem c4_score_bands (st : Storage) (shopId : Option Nat) (sms : SmsInbox)
    (a : Int) (ha : a ≠ 0) (r : PaymentRequest) :
    (r.amountCents = a → scoreFor (some a) r = 100) ∧
    (r.amountCents ≠ a → (r.amountCents - a).natAbs < 100 →
      scoreFor (some a) r = 80) ∧
    (100 ≤ (r.amountCents - a).natAbs → scoreFor (some a) r = 0) ∧
    (∀ r', scoreFor none r' = 0) ∧
    (∀ c ∈ smsCandidates st shopId sms,
      c.matchScore = scoreFor sms.parsedAmountCents c.req ∧ 0 < c.matchScore) := by
  refine ⟨fun h => by simp [scoreFor, ha, h], fun h1 h2 => by simp [scoreFor, ha, h1, h2],
    fun h => ?_, fun r' => by simp [scoreFor], fun c hc => ?_⟩
  · have h1 : r.amountCents ≠ a := by
      intro he
      rw [he, sub_self] at h
      simp at h
    have h2 : ¬ (r.amountCents - a).natAbs < 100 := Nat.not_lt.mpr h
    simp [scoreFor, ha, h1, h2]
  · simp only [smsCandidates] at hc
    rw [mem_sortBy] at hc
    rcases List.mem_filter.mp hc with ⟨hc2, hpos⟩
    rcases List.mem_map.mp hc2 with ⟨r', _, rfl⟩
    exact ⟨rfl, of_decide_eq_true hpos⟩

/-- C4 witness: the amended theorem applied at the boundary input. -/
theorem c4_score_bands_witness :
    (1000 : Int) ≠ 0 ∧ scoreFor (some 1000) reqT = 0 :=
  ⟨by decide, (c4_score_bands stC4 (some 1) smsT 1000 (by decide) reqT).2.2.1 (by decide)⟩

/-! ## Claim C5 -/

/-- C5 counterexample: the claim says equal-score candidates appear in
ascending creation order (oldest first).  With two exact-match pending
requests created at times 10 and 20, the returned list places the newer
request (createdAt 20) first: the underlying listing is
newest-first and the stable score sort keeps that order on ties. -/
theorem c5_counterexample_tie_order :
    smsCandidates stC5 (some 1) smsC5x =
      [{ req := reqNew, matchScore := 100 }, { req := reqOld, matchScore := 100 }] ∧
    reqOld.createdAt < reqNew.createdAt := by decide

/-- C5 amended: the candidate list is sorted by descending score, and any
two candidates with equal score appear in descending order of their
payment-request creation time (newest first), inherited from the
creation-time-descending request listing through the stable score sort. -/
theorem c5_candidates_order (st : Storage) (shopId : Option Nat) (sms : SmsInbox) :
    (smsCandidates st shopId sms).Pairwise
      (fun a b => b.matchScore ≤ a.matchScore) ∧
    (smsCandidates st shopId sms).Pairwise
      (fun a b => a.matchScore = b.matchScore → b.req.createdAt ≤ a.req.createdAt) := by
  constructor
  · have h := sortBy_sorted (fun a b : Candidate => decide (b.matchScore ≤ a.matchScore))
      (fun x y hxy => by simp only [decide_eq_false_iff_not, not_le] at hxy; simp; omega)
      (fun x y z hxy hyz => by
        simp only [decide_eq_true_eq] at hxy hyz; simp; omega)
      (((getPaymentRequests st shopId none (some "pending") none).map
        (fun r => ⟨r, scoreFor sms.parsedAmountCents r⟩)).filter
          (fun c => 0 < c.matchScore))
    simp only [smsCandidates]
    exact h.imp (fun hab => of_decide_eq_true hab)
  · have hreq : (getPaymentRequests st shopId none (some "pending") none).Pairwise
        (fun a b => b.createdAt ≤ a.createdAt) := by
      have h := sortBy_sorted (fun a b : PaymentRequest => decide (b.createdAt ≤ a.createdAt))
        (fun x y hxy => by simp only [decide_eq_false_iff_not, not_le] at hxy; simp; omega)
        (fun x y z hxy hyz => by
          simp only [decide_eq_true_eq] at hxy hyz; simp; omega)
        (st.paymentRequests.filter (requestWhere shopId none (some "pending")))
      simp only [getPaymentRequests]
      exact h.imp (fun hab => of_decide_eq_true hab)
    have hmap : (((getPaymentRequests st shopId none (some "pending") none).map
        (fun r => (⟨r, scoreFor sms.parsedAmountCents r⟩ : Candidate)))).Pairwise
        (fun a b => b.req.createdAt ≤ a.req.createdAt) :=
      hreq.map _ (fun a b hab => hab)
    have hfil := List.Pairwise.sublist (List.filter_sublist
      (p := fun c => 0 < c.matchScore) _) hmap
    have hfil2 : (((getPaymentRequests st shopId none (some "pending") none).map
        (fun r => (⟨r, scoreFor sms.parsedAmountCents r⟩ : Candidate))).filter
          (fun c => 0 < c.matchScore)).Pairwise
        (fun a b => a.matchScore = b.matchScore → b.req.createdAt ≤ a.req.createdAt) := by
      refine hfil.imp ?_
      intro a b hab _
      exact hab
    simp only [smsCandidates]
    refine pairwise_sortBy_of_pairwise
      (fun a b : Candidate => decide (b.matchScore ≤ a.matchScore)) ?_ _ hfil2
    intro x y hxy heq
    simp only [decide_eq_false_iff_not, not_le] at hxy
    omega

/-! ## Claim C6 -/

/-- C6 counterexample: the claim says a signal with an amount but no
reference gets a confidence in the band 50-79.  The text `"Rs 10 paid"`
parses to amount 1000 with no UTR, yet its confidence is 80 — the code
assigns `parsedAmount ? 80 : 50` and never consults the reference. -/
theorem c6_counterexample_amount_only_band :
    (parseSms ("Rs 10 paid".toList)).amount = some 1000 ∧
    (parseSms ("Rs 10 paid".toList)).utr = none ∧
    (parseSms ("Rs 10 paid".toList)).confidence = 80 ∧
    ¬ (parseSms ("Rs 10 paid".toList)).confidence ≤ 79 := by decide

/-- C6 amended: confidence depends only on whether a truthy amount was
extracted: both-amount-and-reference and amount-only signals get exactly
80 (equal, not strictly ordered), and a signal with no amount gets exactly
50 (not below 50); the no-amount confidence is strictly below the others. -/
theorem c6_confidence_bands (t1 t2 t3 : List Char)
    (h1a : jsTruthyAmt (parseSms t1).amount = true)
    (_h1u : (parseSms t1).utr.isSome = true)
    (h2a : jsTruthyAmt (parseSms t2).amount = true)
    (_h2u : (parseSms t2).utr = none)
    (h3 : jsTruthyAmt (parseSms t3).amount = false) :
    (parseSms t1).confidence = 80 ∧ (parseSms t2).confidence = 80 ∧
    (parseSms t3).confidence = 50 ∧
    (parseSms t1).confidence = (parseSms t2).confidence ∧
    (parseSms t3).confidence < (parseSms t2).confidence := by
  simp only [parseSms] at h1a h2a h3 ⊢
  rw [h1a, h2a, h3]
  norm_num

/-- C6 witness: the amended theorem applied to three concrete texts. -/
theorem c6_confidence_bands_witness :
    (parseSms ("Rs 5 UTR: A1".toList)).confidence = 80 ∧
    (parseSms ("Rs 5".toList)).confidence = 80 ∧
    (parseSms ("hi".toList)).confidence = 50 ∧
    (parseSms ("Rs 5 UTR: A1".toList)).confidence =
      (parseSms ("Rs 5".toList)).confidence ∧
    (parseSms ("hi".toList)).confidence <
      (parseSms ("Rs 5".toList)).confidence :=
  c6_confidence_bands ("Rs 5 UTR: A1".toList) ("Rs 5".toList) ("hi".toList)
    (by decide) (by decide) (by decide) (by decide) (by decide)

/-! ## Claim C7 -/

theorem fracPart_shape (l : List Char) :
    fracPart l = [] ∨
      ∃ d1 d2, fracPart l = ['.', d1, d2] ∧ isDigitCh d1 = true ∧ isDigitCh d2 = true := by
  unfold fracPart
  split
  · rename_i d1 d2 t
    by_cases h : (isDigitCh d1 && isDigitCh d2) = true
    · rcases Bool.and_eq_true_iff.mp h with ⟨h1, h2⟩
      exact Or.inr ⟨d1, d2, by rw [if_pos h], h1, h2⟩
    · exact Or.inl (by rw [if_neg h])
  · exact Or.inl rfl

theorem amountNum_shape (l2 cap : List Char) (h : amountNum l2 = some cap) :
    ∃ ds f, cap = ds ++ f ∧ ds ≠ [] ∧ (∀ c ∈ ds, isDigitOrComma c = true) ∧
      (f = [] ∨
        ∃ d1 d2, f = ['.', d1, d2] ∧ isDigitCh d1 = true ∧ isDigitCh d2 = true) := by
  simp only [amountNum] at h
  by_cases hds : l2.takeWhile isDigitOrComma = []
  · rw [if_pos hds] at h
    exact absurd h (by simp)
  · rw [if_neg hds] at h
    have hcap : l2.takeWhile isDigitOrComma ++
        fracPart (l2.drop (l2.takeWhile isDigitOrComma).length) = cap := by
      injection h
    exact ⟨l2.takeWhile isDigitOrComma,
      fracPart (l2.drop (l2.takeWhile isDigitOrComma).length), hcap.symm, hds,
      fun c hc => List.mem_takeWhile_imp hc, fracPart_shape _⟩

theorem amountAt_shape (l cap : List Char) (h : amountAt l = some cap) :
    ∃ ds f, cap = ds ++ f ∧ ds ≠ [] ∧ (∀ c ∈ ds, isDigitOrComma c = true) ∧
      (f = [] ∨
        ∃ d1 d2, f = ['.', d1, d2] ∧ isDigitCh d1 = true ∧ isDigitCh d2 = true) := by
  unfold amountAt at h
  split at h
  · split at h
    · unfold amountTail at h
      exact amountNum_shape _ _ h
    · cases h
  · cases h

theorem findAmountCapture_shape (text : List Char) : ∀ cap,
    findAmountCapture text = some cap →
    ∃ ds f, cap = ds ++ f ∧ ds ≠ [] ∧ (∀ c ∈ ds, isDigitOrComma c = true) ∧
      (f = [] ∨
        ∃ d1 d2, f = ['.', d1, d2] ∧ isDigitCh d1 = true ∧ isDigitCh d2 = true) := by
  induction text with
  | nil => intro cap h; exact absurd h (by simp [findAmountCapture])
  | cons c rest ih =>
    intro cap h
    unfold findAmountCapture at h
    cases ha : amountAt (c :: rest) with
    | some cap2 =>
      rw [ha] at h
      simp only [Option.some.injEq] at h
      exact h ▸ amountAt_shape _ _ ha
    | none =>
      rw [ha] at h
      exact ih cap h

/-- C7 counterexample: the claim says a numeric literal with one decimal
digit is also accepted, so `"Rs 10.5"` would parse as 1050 minor units.
The regex fraction group requires exactly two decimal digits; the capture
is just `10` and the parsed amount is 1000, not 1050. -/
theorem c7_counterexample_one_decimal :
    parseAmountCents ("Rs 10.5".toList) = some 1000 ∧
    parseAmountCents ("Rs 10.5".toList) ≠ some 1050 := by decide

/-- C7 amended: the extracted amount is taken from the first occurrence of
the case-insensitive `Rs`/`Rs.` marker followed by a numeric literal of
digits/thousands separators with either exactly two decimal places or
none (a lone decimal digit is not part of the captured literal), and is
converted to integer minor units; when no such token exists the amount is
null, and parsing is a total function.  Formally: every successful capture
splits into a non-empty digits-and-commas part plus a fraction that is
empty or a dot and exactly two digits, and the parsed amount is the
capture's conversion. -/
theorem c7_amount_two_decimals (text cap : List Char)
    (h : findAmountCapture text = some cap) :
    parseAmountCents text = captureToCents cap ∧
    ∃ ds f, cap = ds ++ f ∧ ds ≠ [] ∧ (∀ c ∈ ds, isDigitOrComma c = true) ∧
      (f = [] ∨
        ∃ d1 d2, f = ['.', d1, d2] ∧ isDigitCh d1 = true ∧ isDigitCh d2 = true) :=
  ⟨by simp [parseAmountCents, h], findAmountCapture_shape text cap h⟩

/-- C7 witness: the amended theorem applied to a concrete text with a
thousands separator and a two-digit fraction. -/
theorem c7_amount_two_decimals_witness :
    findAmountCapture ("Rs 1,200.50 ok".toList) = some ("1,200.50".toList) ∧
    parseAmountCents ("Rs 1,200.50 ok".toList) = captureToCents ("1,200.50".toList) :=
  ⟨by decide,
    (c7_amount_two_decimals ("Rs 1,200.50 ok".toList) ("1,200.50".toList) (by decide)).1⟩

/-! ## Claim C8 -/

/-- C8 counterexample: the claim says an expired request is never returned
as a candidate even on an exact amount match.  `reqExp` expired at 50, the
message arrived at 1000, and the candidate query still returns it with
score 100 — no expiry condition exists in the query or the scorer. -/
theorem c8_counterexample_expired_candidate :
    reqExp.shortTokenExpiresAt < smsE.receivedAt ∧
    smsCandidates stC8 (some 1) smsE = [{ req := reqExp, matchScore := 100 }] := by
  decide

/-- C8 amended: the candidate set contains only payment requests that are
in the pending status and belong to the caller's shop; expiry is never
consulted, so requests whose expiry time has passed are still eligible. -/
theorem c8_candidates_pending_scoped (st : Storage) (shopId : Nat) (sms : SmsInbox)
    (c : Candidate) (hc : c ∈ smsCandidates st (some shopId) sms) :
    c.req.status = "pending" ∧ c.req.shopId = shopId ∧ c.req ∈ st.paymentRequests := by
  simp only [smsCandidates] at hc
  rw [mem_sortBy] at hc
  rcases List.mem_filter.mp hc with ⟨hc2, _⟩
  rcases List.mem_map.mp hc2 with ⟨r, hrmem, rfl⟩
  simp only [getPaymentRequests] at hrmem
  rw [mem_sortBy] at hrmem
  rcases List.mem_filter.mp hrmem with ⟨hrl, hrw⟩
  simp only [requestWhere] at hrw
  simp at hrw
  exact ⟨hrw.2, hrw.1, hrl⟩

/-- C8 witness: the amended theorem applied to the expired candidate. -/
theorem c8_candidates_pending_scoped_witness :
    ({ req := reqExp, matchScore := 100 } : Candidate) ∈ smsCandidates stC8 (some 1) smsE ∧
    reqExp.status = "pending" ∧ reqExp.shopId = 1 ∧ reqExp ∈ stC8.paymentRequests :=
  ⟨by decide,
    c8_candidates_pending_scoped stC8 1 smsE { req := reqExp, matchScore := 100 }
      (by decide)⟩

/-! ## Claim C10 -/

/-- C10: the unidentified-SMS listing ignores its shop argument — any two
shop identifiers yield the identical list — and a row is listed exactly
when its `matchedRequestId` is null, across all shops and devices and
regardless of `processedAt` (so dismissed-but-unmatched rows are
included). -/
theorem c10_unidentified_ignores_shop (st : Storage) (sh1 sh2 : Option Nat) :
    getUnidentifiedSms st sh1 = getUnidentifiedSms st sh2 ∧
    (∀ s, s ∈ getUnidentifiedSms st sh1 ↔
      s ∈ st.smsInbox ∧ s.matchedRequestId = none) := by
  refine ⟨rfl, fun s => ?_⟩
  simp only [getUnidentifiedSms]
  rw [mem_sortBy]
  simp [List.mem_filter]

/-! ## Claim C9 -/

/-- C9: a webhook submission (with a schema-valid body) is admitted if and
only if a non-empty credential header was presented, the claimed device
exists, the hash of the presented bearer credential (with a `"Bearer "`
marker stripped) equals the stored credential hash for that device, and
the device is not revoked; on any authentication failure the handler
returns an authorization error (401/403) and the state — in particular
the SMS inbox — is unchanged; on success the device's last-seen timestamp
is updated and exactly the parsed inbox row is appended. -/
theorem c9_webhook_gate (hash : List Char → List Char) (st : Storage)
    (xwt auth : Option (List Char)) (body : SmsWebhookBody) (now : Int) :
    ((∃ i, (smsWebhook hash st xwt auth body now).1 = WebhookResult.ok i) ↔
      (∃ header device, effectiveHeader xwt auth = some header ∧
        getDeviceByUuid st body.deviceId = some device ∧
        device.webhookTokenHash = hash (removeFirstOcc bearerTag header) ∧
        device.revokedAt = none)) ∧
    ((¬ ∃ i, (smsWebhook hash st xwt auth body now).1 = WebhookResult.ok i) →
      (smsWebhook hash st xwt auth body now).2 = st) ∧
    (∀ device, getDeviceByUuid st body.deviceId = some device →
      (∃ i, (smsWebhook hash st xwt auth body now).1 = WebhookResult.ok i) →
      (smsWebhook hash st xwt auth body now).2 =
        { updateDeviceLastSeen st device.id now with
            smsInbox := st.smsInbox ++ [webhookSmsRow st device body]
            nextId := st.nextId + 1 }) := by
  cases hh : effectiveHeader xwt auth with
  | none => simp [smsWebhook, hh]
  | some header =>
    cases hd : getDeviceByUuid st body.deviceId with
    | none => simp [smsWebhook, hh, hd]
    | some device =>
      by_cases h1 : device.webhookTokenHash = hash (removeFirstOcc bearerTag header)
      · by_cases h2 : device.revokedAt = none
        · have h2s : device.revokedAt.isSome = false := by rw [h2]; rfl
          refine ⟨?_, ?_, ?_⟩
          · simp [smsWebhook, hh, hd, h1, h2, h2s]
          · intro hno
            exfalso
            apply hno
            refine ⟨st.nextId, ?_⟩
            simp [smsWebhook, hh, hd, h1, h2s, updateDeviceLastSeen]
          · intro d hd2 _
            injection hd2 with hde
            subst hde
            simp [smsWebhook, hh, hd, h1, h2s, updateDeviceLastSeen, webhookSmsRow]
        · have h2s : device.revokedAt.isSome = true := Option.ne_none_iff_isSome.mp h2
          simp [smsWebhook, hh, hd, h1, h2, h2s]
      · simp [smsWebhook, hh, hd, h1]

end Smspay
